import Mathlib

/-!
Verification of the COACHAI repetition-counting core
(`src/src/motion_tracker.py` and `src/src/utils.py`).

The Python `MotionTracker` class is embedded as a pure state-transition
system over a `TrackerState` record.  The pose-estimation library and the
per-frame geometry (MediaPipe landmark indexing feeding `calculate_angle`)
are external collaborators: a detected frame is modelled as the angle the
routed analyzer computes for it, together with the raw landmark list that
the recorder down-samples.  Angles and coordinates are exact rationals
(the Python floats idealized); the angle primitive itself is modelled over
the reals with `Complex.arg` playing the role of `atan2`.
-/

set_option maxRecDepth 100000

namespace CoachAI

/-- Movement phase.  Python stores `self.stage` as `None` / `"UP"` / `"DOWN"`;
we model the two string values by this enum and `None` by `Option`. -/
inductive Stage
  | up
  | down
deriving DecidableEq

/-- Threshold dictionary of an exercise entry.
The field defaults mirror `config['thresholds'].get('down', 90)` /
`.get('up', 160)` in `_analyze_dynamic`. -/
structure Thresholds where
  down : ℚ := 90
  up : ℚ := 160
deriving DecidableEq

/-- Counting direction, `config.get('mode', 'max_min')`. -/
inductive Mode
  | max_min
  | min_max
deriving DecidableEq

/-- One entry of `self.good_forms`: description, thresholds, optional
landmark names and mode (defaults as read by `_analyze_dynamic`). -/
structure ExerciseConfig where
  description : String := ""
  thresholds : Thresholds := {}
  landmarks : List String := []
  mode : Mode := Mode.max_min
deriving DecidableEq

/-- A detected landmark's normalized image coordinates (`lm.x`, `lm.y`). -/
structure LMPoint where
  x : ℚ
  y : ℚ
deriving DecidableEq

/-- One sampled entry of `self.recorded_data` (keys `i`, `a`, `s`, `l`). -/
structure RecordedFrame where
  i : Nat
  a : Int
  s : Option Stage
  l : List LMPoint
deriving DecidableEq

/-- The mutable state of a `MotionTracker` instance (`__init__`). -/
structure TrackerState where
  counter : Nat
  stage : Option Stage
  feedback : String
  current_exercise : String
  recording : Bool
  recorded_data : List RecordedFrame
  frame_count : Nat
  good_forms : List (String × ExerciseConfig)
deriving DecidableEq

/-- Dictionary lookup in the `good_forms` registry (first binding wins,
as in a Python dict where keys are unique by construction of `setForm`). -/
def getForm : List (String × ExerciseConfig) → String → Option ExerciseConfig
  | [], _ => none
  | (k, v) :: rest, n => if k = n then some v else getForm rest n

/-- Dictionary assignment `self.good_forms[name] = config`: overwrite the
existing binding in place, else append. -/
def setForm : List (String × ExerciseConfig) → String → ExerciseConfig →
    List (String × ExerciseConfig)
  | [], n, c => [(n, c)]
  | (k, v) :: rest, n, c =>
      if k = n then (n, c) :: rest else (k, v) :: setForm rest n c

/-- The seed `self.good_forms` dictionary built in `__init__`. -/
def initialGoodForms : List (String × ExerciseConfig) :=
  [("squat",
    { description := "Keep back straight, knees in line with toes, hips below knees.",
      thresholds := { down := 90, up := 160 } }),
   ("curl",
    { description := "Keep elbows pinned to side. Full extension and flexion.",
      thresholds := { down := 160, up := 30 } }),
   ("pushup",
    { description := "Maintain straight plank position. Chest close to floor.",
      thresholds := { down := 90, up := 160 } })]

/-- The tracker right after `__init__`. -/
def initState : TrackerState :=
  { counter := 0
    stage := none
    feedback := "Ready"
    current_exercise := "squat"
    recording := false
    recorded_data := []
    frame_count := 0
    good_forms := initialGoodForms }

/-- Operation `start_recording`: set the flag, reset the buffer and the counter. -/
def start_recording (s : TrackerState) : TrackerState :=
  { s with recording := true, recorded_data := [], frame_count := 0 }

/-- The dictionary returned by `stop_recording`. -/
structure RecordingResult where
  exercise_name : String
  frames : List RecordedFrame
deriving DecidableEq

/-- Operation `stop_recording`: clear the flag and hand the buffer back (the buffer
itself is not cleared). -/
def stop_recording (s : TrackerState) : TrackerState × RecordingResult :=
  ({ s with recording := false },
   { exercise_name := s.current_exercise, frames := s.recorded_data })

/-- Python `str.lower()` (char-by-char, so that it evaluates in the
kernel; the repository's identifiers are ASCII). -/
def pyLower (s : String) : String := String.mk (s.data.map Char.toLower)

/-- Python `str.upper()`. -/
def pyUpper (s : String) : String := String.mk (s.data.map Char.toUpper)

/-- Python `str.strip()`: drop whitespace from both ends. -/
def pyStrip (s : String) : String :=
  String.mk (((s.data.dropWhile Char.isWhitespace).reverse.dropWhile
    Char.isWhitespace).reverse)

/-- Python `str(l).upper().strip()` applied to a landmark name. -/
def upperTrim (l : String) : String := pyStrip (pyUpper l)

/-- Operation `add_custom_exercise(name, check_func=None, config=None)`: lowercase the
name; when a config is supplied, uppercase/trim its landmark names and store
it; with `config=None` (`if config:` false) nothing happens. -/
def add_custom_exercise (s : TrackerState) (name : String)
    (config : Option ExerciseConfig) : TrackerState :=
  let name := pyLower name
  match config with
  | none => s
  | some cfg =>
      let cfg := { cfg with landmarks := cfg.landmarks.map upperTrim }
      { s with good_forms := setForm s.good_forms name cfg }

/-- Python `str.capitalize()`: first character uppercased, rest lowercased. -/
def pyCapitalize (s : String) : String :=
  match s.data with
  | [] => String.mk []
  | c :: rest => String.mk (Char.toUpper c :: rest.map Char.toLower)

/-- Operation `set_exercise(exercise_name)`: on a registry hit (after lowercasing)
switch the exercise, zero the counter, unset the stage and compose the
`"Selected: ..."` feedback, returning `True`; on a miss return `False`
leaving the state untouched. -/
def set_exercise (s : TrackerState) (exercise_name : String) :
    Bool × TrackerState :=
  let name := pyLower exercise_name
  match getForm s.good_forms name with
  | some cfg =>
      (true,
       { s with current_exercise := name
                counter := 0
                stage := none
                feedback := "Selected: " ++ pyCapitalize name ++ ". " ++ cfg.description })
  | none => (false, s)

/-! ### Per-frame analyzers

Each `_analyze_*` method reads joints from the MediaPipe result, computes
one or two angles with `calculate_angle`, and then updates the local
`state` / `feedback` and the tracker's `counter` (for `_analyze_dynamic`,
also `self.stage` and `self.feedback` directly).  The geometric part is
external (pose detector + `calculate_angle`); the analyzers are therefore
embedded over the angle values they would compute, and each one's
state-machine body is a pure function of the three cells the Python code
mutates (`stage`, `counter`, `feedback`). -/

/-- State-machine body of `_analyze_curl` (lines 119-133): `angle` is the
shoulder-elbow-wrist angle.  Returns the new `(state, counter, feedback)`. -/
def curlCore (down_thresh up_thresh : ℚ) (stage : Option Stage)
    (counter : Nat) (angle : ℚ) : Option Stage × Nat × String :=
  let st1 := if angle > down_thresh then some Stage.down else stage
  let p :=
    if angle < up_thresh ∧ st1 = some Stage.down then (some Stage.up, counter + 1)
    else (st1, counter)
  let fb1 := "Good Form"
  let fb2 := if p.1 = some Stage.up ∧ angle > 45 then "Squeeze at top" else fb1
  let fb3 := if p.1 = some Stage.down ∧ angle < 140 then "Full Extension" else fb2
  (p.1, p.2, fb3)

/-- State-machine body of `_analyze_squat` (lines 95-107): `angle` is the
hip-knee-ankle knee angle, `hip_angle` the knee-hip-shoulder torso angle. -/
def squatCore (down_thresh up_thresh : ℚ) (stage : Option Stage)
    (counter : Nat) (angle hip_angle : ℚ) : Option Stage × Nat × String :=
  let st1 := if angle > up_thresh then some Stage.up else stage
  let p :=
    if angle < down_thresh ∧ st1 = some Stage.up then (some Stage.down, counter + 1)
    else (st1, counter)
  let fb1 := "Good Form"
  let fb2 := if hip_angle < 70 then "Keep Chest Up" else fb1
  let fb3 := if p.1 = some Stage.down ∧ angle > 100 then "Go Lower" else fb2
  (p.1, p.2, fb3)

/-- State-machine body of `_analyze_pushup` (lines 148-158): `elbow_angle`
is shoulder-elbow-wrist, `body_angle` is shoulder-hip-ankle. -/
def pushupCore (down_thresh up_thresh : ℚ) (stage : Option Stage)
    (counter : Nat) (elbow_angle body_angle : ℚ) : Option Stage × Nat × String :=
  let st1 := if elbow_angle > up_thresh then some Stage.up else stage
  let p :=
    if elbow_angle < down_thresh ∧ st1 = some Stage.up then (some Stage.down, counter + 1)
    else (st1, counter)
  let fb :=
    if body_angle < 160 ∨ body_angle > 200 then "Straighten Body" else "Good Form"
  (p.1, p.2, fb)

/-- State-machine body of `_analyze_dynamic` (lines 186-216): the two
threshold reads, the mode dispatch and the three mutable cells. -/
def dynamicCore (down_thresh up_thresh : ℚ) (mode : Mode) (stage : Option Stage)
    (counter : Nat) (feedback : String) (angle : ℚ) : Option Stage × Nat × String :=
  match mode with
  | Mode.max_min =>
      let q1 := if angle > up_thresh then (some Stage.up, "Descend") else (stage, feedback)
      let q2 :=
        if angle < down_thresh ∧ q1.1 = some Stage.up then
          (some Stage.down, counter + 1, "Push Up!")
        else (q1.1, counter, q1.2)
      if q2.1 = none ∧ angle ≤ up_thresh then (q2.1, q2.2.1, "Fully Extend to Start")
      else q2
  | Mode.min_max =>
      let q1 := if angle < down_thresh then (some Stage.down, "Lift High") else (stage, feedback)
      let q2 :=
        if angle > up_thresh ∧ q1.1 = some Stage.down then
          (some Stage.up, counter + 1, "Return to Start")
        else (q1.1, counter, q1.2)
      if q2.1 = none ∧ angle ≥ down_thresh then (q2.1, q2.2.1, "Lower Arms to Start")
      else q2

/-- Thresholds read for the three built-in analyzers,
`self.good_forms[name]["thresholds"]`.  The seed keys are created in
`__init__` and never deleted, so the lookup always succeeds on reachable
states (a missing key would raise `KeyError` in Python); the `none` arm is
an arbitrary total-function completion. -/
def builtinThresholds (s : TrackerState) (name : String) : Thresholds :=
  match getForm s.good_forms name with
  | some c => c.thresholds
  | none => { down := 0, up := 0 }

/-- Method `_analyze_dynamic` as a state transformer: returns the updated tracker
and the angle value the method returns (`0` on the exception path, where a
missing registry entry raises `KeyError` into the broad `except` of lines
218-221, which keeps `stage`/`counter` and sets a short error feedback). -/
def analyze_dynamic (s : TrackerState) (angle : ℚ) : TrackerState × ℚ :=
  match getForm s.good_forms s.current_exercise with
  | none =>
      ({ s with feedback :=
          "Error: " ++ (("\x27" ++ s.current_exercise ++ "\x27").take 10) }, 0)
  | some config =>
      let r := dynamicCore config.thresholds.down config.thresholds.up config.mode
                 s.stage s.counter s.feedback angle
      ({ s with stage := r.1, counter := r.2.1, feedback := r.2.2 }, angle)

/-- Iterated `_analyze_dynamic` over a sequence of per-frame angles. -/
def run_dynamic (s : TrackerState) : List ℚ → TrackerState
  | [] => s
  | a :: rest => run_dynamic (analyze_dynamic s a).1 rest

/-! ### The per-frame call `process_frame` -/

/-- Python `int()` on a (nonnegative or negative) rational: truncation
toward zero, as applied to the angle in `int(angle)`. -/
def pyInt (q : ℚ) : Int := if 0 ≤ q then ⌊q⌋ else -⌊-q⌋

/-- Python `round(x, 3)`: round to 3 decimal places, ties to even
(the float value idealized as the exact rational). -/
def pyRound3 (q : ℚ) : ℚ :=
  let s := q * 1000
  let f : Int := ⌊s⌋
  let n : Int :=
    if s - f < 1 / 2 then f
    else if s - f > 1 / 2 then f + 1
    else if f % 2 = 0 then f else f + 1
  (n : ℚ) / 1000

/-- A successful pose detection for one frame: the primary angle the routed
analyzer computes from the configured joints, the secondary form-check
angle for squat/pushup (`hip_angle` / `body_angle`), and the full detected
landmark list `results.pose_landmarks.landmark` that the recorder samples. -/
structure PoseFrame where
  angle : ℚ
  angle2 : ℚ := 180
  landmarks : List LMPoint := []
deriving DecidableEq

/-- The dictionary `process_frame` returns next to the image. -/
structure FrameOut where
  angle : ℚ
  state : Option Stage
  reps : Nat
  feedback : String
deriving DecidableEq

/-- The exercise-routing block of `process_frame` (lines 245-253):
dispatch on `current_exercise` to the matching analyzer, assign
`self.stage` / `self.feedback` (and the counter mutated inside the
analyzer), and keep the computed `angle` for recording and output. -/
def route_frame (s : TrackerState) (f : PoseFrame) : TrackerState × ℚ :=
  if s.current_exercise = "squat" then
    let th := builtinThresholds s "squat"
    let r := squatCore th.down th.up s.stage s.counter f.angle f.angle2
    ({ s with stage := r.1, counter := r.2.1, feedback := r.2.2 }, f.angle)
  else if s.current_exercise = "curl" then
    let th := builtinThresholds s "curl"
    let r := curlCore th.down th.up s.stage s.counter f.angle
    ({ s with stage := r.1, counter := r.2.1, feedback := r.2.2 }, f.angle)
  else if s.current_exercise = "pushup" then
    let th := builtinThresholds s "pushup"
    let r := pushupCore th.down th.up s.stage s.counter f.angle f.angle2
    ({ s with stage := r.1, counter := r.2.1, feedback := r.2.2 }, f.angle)
  else
    analyze_dynamic s f.angle

/-- The data-recording block of `process_frame` (lines 256-268), applied to
the post-analysis state `s1` and computed `angle`: while recording,
increment the frame counter and append every 10th frame, with the angle
truncated to an integer and the landmark coordinates rounded to 3 decimals. -/
def record_step (lms : List LMPoint) (s1 : TrackerState) (angle : ℚ) : TrackerState :=
  if s1.recording then
    let fc := s1.frame_count + 1
    if fc % 10 = 0 then
      { s1 with frame_count := fc
                recorded_data := s1.recorded_data ++
                  [{ i := fc
                     a := pyInt angle
                     s := s1.stage
                     l := lms.map fun lm => { x := pyRound3 lm.x, y := pyRound3 lm.y } }] }
    else { s1 with frame_count := fc }
  else s1

/-- Method `process_frame` (lines 223-304), with the pose result modelled as
`Option PoseFrame` (`none` when `results.pose_landmarks` is `None`, in
which case the `landmarks` access raises and the broad `except: pass`
leaves every tracker field untouched while `angle` keeps its default `0`).
Image rendering has no state effect and is omitted. -/
def process_frame (s : TrackerState) (det : Option PoseFrame) :
    TrackerState × FrameOut :=
  match det with
  | none =>
      (s, { angle := 0, state := s.stage, reps := s.counter, feedback := s.feedback })
  | some f =>
      let p := route_frame s f
      let s2 := record_step f.landmarks p.1 p.2
      (s2, { angle := p.2, state := s2.stage, reps := s2.counter, feedback := s2.feedback })

/-- Iterated `process_frame` over a sequence of detections. -/
def run_frames (s : TrackerState) : List (Option PoseFrame) → TrackerState
  | [] => s
  | d :: rest => run_frames (process_frame s d).1 rest

/-! ### The angle primitive (`src/src/utils.py`, `calculate_angle`) -/

/-- Function `np.arctan2 y x`, modelled as the argument of the complex number
`x + y*I`, which lies in `(-π, π]`. -/
noncomputable def arctan2 (y x : ℝ) : ℝ := Complex.arg ⟨x, y⟩

/-- Function `calculate_angle(a, b, c)` (utils.py lines 4-19): the absolute
`atan2` difference at the vertex `b`, converted to degrees and reflected
below 180. -/
noncomputable def calculate_angle (a b c : ℝ × ℝ) : ℝ :=
  let radians := arctan2 (c.2 - b.2) (c.1 - b.1) - arctan2 (a.2 - b.2) (a.1 - b.1)
  let angle := |radians * 180 / Real.pi|
  if angle > 180 then 360 - angle else angle

/-! ### Scenario states used by the concrete claim instances -/

/-- A dynamically registered max_min exercise with the thresholds of the
spec's max_min example (down=90, up=160). -/
def maxminCfg : ExerciseConfig :=
  { description := "Lunge"
    thresholds := { down := 90, up := 160 }
    landmarks := ["LEFT_HIP", "LEFT_KNEE", "LEFT_ANKLE"]
    mode := Mode.max_min }

/-- Tracker with `maxminCfg` registered (via `add_custom_exercise`) and
selected (via `set_exercise`); the selection leaves `stage` unset and the
counter at 0. -/
def lungeState : TrackerState :=
  (set_exercise (add_custom_exercise initState "lunge" (some maxminCfg)) "lunge").2

/-- A dynamically registered min_max exercise with the thresholds of the
spec's min_max example (down=30, up=150). -/
def minmaxCfg : ExerciseConfig :=
  { description := "Lateral raise"
    thresholds := { down := 30, up := 150 }
    landmarks := ["LEFT_HIP", "LEFT_SHOULDER", "LEFT_ELBOW"]
    mode := Mode.min_max }

/-- Tracker with `minmaxCfg` registered and selected. -/
def raiseState : TrackerState :=
  (set_exercise (add_custom_exercise initState "lateral" (some minmaxCfg)) "lateral").2

/-- Tracker with the built-in curl selected. -/
def curlState : TrackerState := (set_exercise initState "curl").2

/-! ### Shared helper lemmas -/

/-- The recording block never touches the analysis cells or the registry. -/
theorem record_step_preserves (lms : List LMPoint) (s1 : TrackerState) (angle : ℚ) :
    (record_step lms s1 angle).stage = s1.stage ∧
    (record_step lms s1 angle).counter = s1.counter ∧
    (record_step lms s1 angle).feedback = s1.feedback ∧
    (record_step lms s1 angle).current_exercise = s1.current_exercise ∧
    (record_step lms s1 angle).good_forms = s1.good_forms ∧
    (record_step lms s1 angle).recording = s1.recording := by
  unfold record_step
  dsimp only
  split_ifs <;> exact ⟨rfl, rfl, rfl, rfl, rfl, rfl⟩

/-- The routed analyzers never touch the recording cells. -/
theorem route_frame_preserves (s : TrackerState) (f : PoseFrame) :
    ((route_frame s f).1).recording = s.recording ∧
    ((route_frame s f).1).frame_count = s.frame_count ∧
    ((route_frame s f).1).recorded_data = s.recorded_data := by
  unfold route_frame analyze_dynamic
  dsimp only
  split_ifs <;> try exact ⟨rfl, rfl, rfl⟩
  cases getForm s.good_forms s.current_exercise <;> exact ⟨rfl, rfl, rfl⟩

/-- While recording, a detected frame advances the frame counter by one and
appends the sampled record exactly when the new count is a multiple of 10. -/
theorem record_step_recording (lms : List LMPoint) (s1 : TrackerState) (angle : ℚ)
    (h : s1.recording = true) :
    (record_step lms s1 angle).frame_count = s1.frame_count + 1 ∧
    (record_step lms s1 angle).recorded_data =
      (if (s1.frame_count + 1) % 10 = 0 then
        s1.recorded_data ++
          [{ i := s1.frame_count + 1
             a := pyInt angle
             s := s1.stage
             l := lms.map fun lm => { x := pyRound3 lm.x, y := pyRound3 lm.y } }]
       else s1.recorded_data) := by
  unfold record_step
  rw [h]
  dsimp only
  rw [if_pos rfl]
  split_ifs with h10 <;> simp [h10]

/-! ### Claim theorems -/

/-- A tracker whose previous frame produced the form cue "Good Form". -/
def goodFormState : TrackerState := { initState with feedback := "Good Form" }

/-- C6, counterexample: a frame with no detected person does not yield any
designated "no detection" / AnalysisUnavailable feedback — the per-frame
call returns whatever feedback the previous frame left behind (here the
stale form cue "Good Form"), both in the frame result and in the state. -/
theorem C6_counterexample :
    ((process_frame goodFormState none).2).feedback = goodFormState.feedback ∧
    goodFormState.feedback = "Good Form" ∧
    ((process_frame goodFormState none).1).feedback = "Good Form" :=
  ⟨rfl, rfl, rfl⟩

/-- C6, amended: for every frame in which no person is detected, the
per-frame call completes without a fatal error (it is a total function) and
leaves the whole tracker state — phase, rep count, and also the feedback —
unchanged; the frame result carries angle 0 and the previous stage, count
and feedback (there is no designated "no detection" feedback string). -/
theorem C6_no_detection_unchanged (s : TrackerState) :
    (process_frame s none).1 = s ∧
    (process_frame s none).2 =
      { angle := 0, state := s.stage, reps := s.counter, feedback := s.feedback } :=
  ⟨rfl, rfl⟩

/-- C8: `stop_recording` only flips the recording flag to false and returns
the buffer; it never clears `recorded_data`, so a second call with no
intervening `start_recording` returns the same frames, and only
`start_recording` empties the buffer. -/
theorem C8_stop_recording_keeps_buffer (s : TrackerState) :
    (stop_recording s).1 = { s with recording := false } ∧
    (stop_recording s).2.frames = s.recorded_data ∧
    (stop_recording (stop_recording s).1).2.frames = (stop_recording s).2.frames ∧
    (start_recording s).recorded_data = [] :=
  ⟨rfl, rfl, rfl, rfl⟩

/-- C10: calling `add_custom_exercise` without a configuration (`config`
omitted or `None`) leaves the exercise registry — and the whole tracker
state — completely unchanged, whether or not the name is already present. -/
theorem C10_add_custom_exercise_none (s : TrackerState) (name : String) :
    add_custom_exercise s name none = s ∧
    (add_custom_exercise s name none).good_forms = s.good_forms :=
  ⟨rfl, rfl⟩

/-- C3: `select(id)` returns true — setting `current_exercise`, resetting
the rep count to 0 and the phase to unset, and composing the
"Selected: name. description" feedback — if and only if the lowercased id
is in the registry; on a miss it returns false with the state untouched.
Concretely, `select("Squat")` then `select("nonexistent")` leaves
`current_exercise` as squat with the rep count unaffected, and selecting
"curl" zeroes a previously accumulated count. -/
theorem C3_set_exercise :
    (∀ (s : TrackerState) (id : String),
      ((set_exercise s id).1 = true ↔ (getForm s.good_forms (pyLower id)).isSome = true) ∧
      (∀ cfg, getForm s.good_forms (pyLower id) = some cfg →
        (set_exercise s id).2 =
          { s with current_exercise := pyLower id
                   counter := 0
                   stage := none
                   feedback := "Selected: " ++ pyCapitalize (pyLower id) ++ ". " ++
                     cfg.description }) ∧
      (getForm s.good_forms (pyLower id) = none → (set_exercise s id).2 = s)) ∧
    ((set_exercise (set_exercise initState "Squat").2 "nonexistent").1 = false ∧
     (set_exercise (set_exercise initState "Squat").2 "nonexistent").2.current_exercise =
       "squat" ∧
     (set_exercise (set_exercise initState "Squat").2 "nonexistent").2.counter =
       (set_exercise initState "Squat").2.counter ∧
     (set_exercise { initState with counter := 7 } "curl").2.counter = 0) := by
  constructor
  · intro s id
    unfold set_exercise
    dsimp only
    cases h : getForm s.good_forms (pyLower id) with
    | none => simp [h]
    | some cfg => simp [h]
  · exact ⟨rfl, rfl, rfl, rfl⟩

/-- The registry's seed configuration for the curl exercise. -/
def curlSeedCfg : ExerciseConfig :=
  { description := "Keep elbows pinned to side. Full extension and flexion."
    thresholds := { down := 160, up := 30 } }

/-- C3, witness: instantiating the universal part at the initial tracker
and the id "Curl", whose lowercase form is registered. -/
theorem C3_witness :
    getForm initState.good_forms (pyLower "Curl") = some curlSeedCfg ∧
    (set_exercise initState "Curl").2 =
      { initState with current_exercise := pyLower "Curl"
                       counter := 0
                       stage := none
                       feedback := "Selected: " ++ pyCapitalize (pyLower "Curl") ++ ". " ++
                         curlSeedCfg.description } :=
  ⟨rfl, (C3_set_exercise.1 initState "Curl").2.1 curlSeedCfg rfl⟩

/-- Bridge: when the current exercise is the curl and its registry entry
carries the seed thresholds, a detected frame updates stage and counter
exactly as the `_analyze_curl` state machine does on the frame's angle. -/
theorem process_frame_curl (s : TrackerState) (f : PoseFrame)
    (hex : s.current_exercise = "curl")
    (hcfg : getForm s.good_forms "curl" = some curlSeedCfg) :
    ((process_frame s (some f)).1).stage =
      (curlCore 160 30 s.stage s.counter f.angle).1 ∧
    ((process_frame s (some f)).1).counter =
      (curlCore 160 30 s.stage s.counter f.angle).2.1 := by
  have hne : ¬ (("curl" : String) = "squat") := by decide
  have hroute : route_frame s f =
      ({ s with stage := (curlCore 160 30 s.stage s.counter f.angle).1
                counter := (curlCore 160 30 s.stage s.counter f.angle).2.1
                feedback := (curlCore 160 30 s.stage s.counter f.angle).2.2 }, f.angle) := by
    unfold route_frame builtinThresholds
    rw [hex, if_neg hne, if_pos rfl, hcfg]
    rfl
  have hrec := record_step_preserves f.landmarks (route_frame s f).1 (route_frame s f).2
  refine ⟨?_, ?_⟩
  · show (record_step f.landmarks (route_frame s f).1 (route_frame s f).2).stage = _
    rw [hrec.1, hroute]
  · show (record_step f.landmarks (route_frame s f).1 (route_frame s f).2).counter = _
    rw [hrec.2.1, hroute]

/-- C2, counterexample: for the built-in curl (thresholds down=160, up=30),
a frame whose angle 170 exceeds the up threshold 30 does not set the phase
to UP as the claim's max_min reading says — `_analyze_curl` sets it to
DOWN, because the code attaches the UP transition to the `up` threshold
comparison `angle < 30` and the DOWN transition to `angle > 160`. -/
theorem C2_counterexample :
    (170 : ℚ) > 30 ∧
    ((process_frame curlState (some { angle := 170 })).1).stage = some Stage.down ∧
    ((process_frame curlState (some { angle := 170 })).1).stage ≠ some Stage.up := by
  refine ⟨by norm_num, ?_, ?_⟩ <;> decide

/-- C2, amended: for the built-in curl exercise (seed thresholds down=160°,
up=30°), a frame with angle above the **down** threshold sets phase to
DOWN, and a subsequent frame with angle below the **up** threshold while
the current phase is DOWN sets phase to UP and increments `rep_count` by
exactly 1 (the roles of the two thresholds and phase labels are the mirror
image of the claim's max_min reading). -/
theorem C2_curl_rule (s : TrackerState) (a : ℚ)
    (hex : s.current_exercise = "curl")
    (hcfg : getForm s.good_forms "curl" = some curlSeedCfg) :
    (a > 160 → ((process_frame s (some { angle := a })).1).stage = some Stage.down) ∧
    (a < 30 → s.stage = some Stage.down →
      ((process_frame s (some { angle := a })).1).stage = some Stage.up ∧
      ((process_frame s (some { angle := a })).1).counter = s.counter + 1) := by
  have hb := process_frame_curl s { angle := a } hex hcfg
  constructor
  · intro ha
    rw [hb.1]
    unfold curlCore
    dsimp only
    rw [if_pos ha, if_neg (by rintro ⟨h, -⟩; linarith)]
  · intro ha hdown
    have hcore : (curlCore 160 30 s.stage s.counter a).1 = some Stage.up ∧
        (curlCore 160 30 s.stage s.counter a).2.1 = s.counter + 1 := by
      unfold curlCore
      dsimp only
      have hng : ¬ (a > (160 : ℚ)) := by linarith
      rw [if_neg hng, hdown, if_pos ⟨ha, rfl⟩]
      exact ⟨rfl, rfl⟩
    exact ⟨by rw [hb.1]; exact hcore.1, by rw [hb.2]; exact hcore.2⟩

/-- In max_min mode with thresholds down=90, up=160, a frame whose angle is
below the down threshold leaves the DOWN phase, the count and the feedback
untouched. -/
theorem dynamicCore_below_down (c : Nat) (fb : String) (a : ℚ) (ha : a < 90) :
    dynamicCore 90 160 Mode.max_min (some Stage.down) c fb a =
      (some Stage.down, c, fb) := by
  unfold dynamicCore
  dsimp only
  split_ifs with h1 h2 h3 <;>
    first
      | rfl
      | exact absurd ha (by linarith)
      | simp_all

/-- While the tracked dynamic exercise has the max_min 90/160 config and
the phase is DOWN, a frame below the down threshold is a no-op on the whole
tracker state. -/
theorem analyze_dynamic_down_stays (st : TrackerState)
    (hcfg : getForm st.good_forms st.current_exercise = some maxminCfg)
    (hstage : st.stage = some Stage.down) (a : ℚ) (ha : a < 90) :
    (analyze_dynamic st a).1 = st := by
  unfold analyze_dynamic
  rw [hcfg]
  dsimp only
  show ({ st with
      stage := (dynamicCore maxminCfg.thresholds.down maxminCfg.thresholds.up
        maxminCfg.mode st.stage st.counter st.feedback a).1
      counter := (dynamicCore maxminCfg.thresholds.down maxminCfg.thresholds.up
        maxminCfg.mode st.stage st.counter st.feedback a).2.1
      feedback := (dynamicCore maxminCfg.thresholds.down maxminCfg.thresholds.up
        maxminCfg.mode st.stage st.counter st.feedback a).2.2 } : TrackerState) = st
  have hcore : dynamicCore maxminCfg.thresholds.down maxminCfg.thresholds.up
      maxminCfg.mode st.stage st.counter st.feedback a =
        (st.stage, st.counter, st.feedback) := by
    rw [hstage]
    exact dynamicCore_below_down st.counter st.feedback a ha
  rw [hcore]

/-- Iterating `analyze_dynamic_down_stays` over any angle sequence that
stays below the down threshold. -/
theorem run_dynamic_down_stays (angles : List ℚ) :
    ∀ st : TrackerState,
      getForm st.good_forms st.current_exercise = some maxminCfg →
      st.stage = some Stage.down →
      (∀ a ∈ angles, a < 90) →
      run_dynamic st angles = st := by
  induction angles with
  | nil => intro st _ _ _; rfl
  | cons a rest ih =>
      intro st hcfg hstage hall
      have hstep := analyze_dynamic_down_stays st hcfg hstage a
        (hall a (List.mem_cons_self a rest))
      unfold run_dynamic
      rw [hstep]
      exact ih st hcfg hstage fun b hb => hall b (List.mem_cons_of_mem a hb)

/-- C1: in max_min mode with thresholds down=90 and up=160 and the phase
initially unset, the angle sequence [170, 80] counts exactly one
repetition, [170, 170, 80, 80] also counts exactly one, and once the phase
is DOWN, any sequence of angles staying below the down threshold (hence
never re-crossing the up threshold) leaves the rep count unchanged. -/
theorem C1_maxmin_counts_once :
    (run_dynamic lungeState [170, 80]).counter = 1 ∧
    (run_dynamic lungeState [170, 170, 80, 80]).counter = 1 ∧
    ∀ (st : TrackerState) (angles : List ℚ),
      getForm st.good_forms st.current_exercise = some maxminCfg →
      st.stage = some Stage.down →
      (∀ a ∈ angles, a < 90) →
      (run_dynamic st angles).counter = st.counter := by
  refine ⟨by decide, by decide, ?_⟩
  intro st angles hcfg hstage hall
  rw [run_dynamic_down_stays angles st hcfg hstage hall]

/-- The max_min tracker right after its first counted repetition. -/
def lungeDownState : TrackerState :=
  { lungeState with stage := some Stage.down, counter := 1 }

/-- C1, witness: a DOWN-phase tracker fed three more angles below the down
threshold keeps its count of 1. -/
theorem C1_witness :
    (getForm lungeDownState.good_forms lungeDownState.current_exercise = some maxminCfg ∧
     lungeDownState.stage = some Stage.down ∧
     ∀ a ∈ ([80, 50, 89] : List ℚ), a < 90) ∧
    (run_dynamic lungeDownState [80, 50, 89]).counter = lungeDownState.counter :=
  ⟨⟨by decide, rfl, by decide⟩,
   C1_maxmin_counts_once.2.2 lungeDownState [80, 50, 89] (by decide) rfl (by decide)⟩

/-- In min_max mode with thresholds down=30, up=150, a frame increments the
count exactly when the phase was DOWN and the angle exceeds the up
threshold. -/
theorem dynamicCore_minmax_count (stg : Option Stage) (c : Nat) (fb : String) (a : ℚ) :
    (dynamicCore 30 150 Mode.min_max stg c fb a).2.1 = c + 1 ↔
      (stg = some Stage.down ∧ a > 150) := by
  unfold dynamicCore
  dsimp only
  split_ifs with h1 h2 h3 <;> simp_all
  · exact absurd h2 (by linarith)
  · rename_i himp hne
    intro hs
    by_contra hgt
    exact himp (not_le.mp hgt) hs

/-- Lemma: `analyze_dynamic` under a registered min_max 30/150 config increments
the rep count on a frame exactly on a DOWN-to-UP transition. -/
theorem analyze_dynamic_minmax_count (st : TrackerState) (a : ℚ)
    (hcfg : getForm st.good_forms st.current_exercise = some minmaxCfg) :
    ((analyze_dynamic st a).1.counter = st.counter + 1 ↔
      (st.stage = some Stage.down ∧ a > 150)) := by
  unfold analyze_dynamic
  rw [hcfg]
  dsimp only
  exact dynamicCore_minmax_count st.stage st.counter st.feedback a

/-- C4: in min_max mode with thresholds down=30 and up=150 and the phase
initially unset, the angle sequence [20, 160] counts one repetition and
[20, 160, 160, 20, 160] counts two; in general a frame increments the rep
count exactly on a DOWN-to-UP transition (phase DOWN and angle above the
up threshold), so repeating a high angle without first going below the
down threshold does not count. -/
theorem C4_minmax_counts :
    (run_dynamic raiseState [20, 160]).counter = 1 ∧
    (run_dynamic raiseState [20, 160, 160, 20, 160]).counter = 2 ∧
    ∀ (st : TrackerState) (a : ℚ),
      getForm st.good_forms st.current_exercise = some minmaxCfg →
      ((run_dynamic st [a]).counter = st.counter + 1 ↔
        (st.stage = some Stage.down ∧ a > 150)) := by
  refine ⟨by decide, by decide, ?_⟩
  intro st a hcfg
  show ((analyze_dynamic st a).1.counter = st.counter + 1 ↔ _)
  exact analyze_dynamic_minmax_count st a hcfg

/-- The min_max tracker after a low frame put it in the DOWN phase with
three repetitions already counted. -/
def raiseDownState : TrackerState :=
  { raiseState with stage := some Stage.down, counter := 3 }

/-- C4, witness: from the DOWN phase, the single frame of angle 160
increments the count (160 exceeds the up threshold 150). -/
theorem C4_witness :
    (getForm raiseDownState.good_forms raiseDownState.current_exercise = some minmaxCfg) ∧
    ((run_dynamic raiseDownState [160]).counter = raiseDownState.counter + 1 ↔
      (raiseDownState.stage = some Stage.down ∧ (160 : ℚ) > 150)) :=
  ⟨by decide, C4_minmax_counts.2.2 raiseDownState 160 (by decide)⟩

/-- A curl tracker whose previous frame reached the extended (DOWN) phase. -/
def curlDownState : TrackerState := { curlState with stage := some Stage.down, counter := 4 }

/-- C2, witness: instantiating the amended rule at the extended-phase curl
tracker and a flexed frame of angle 20. -/
theorem C2_witness :
    (curlDownState.current_exercise = "curl" ∧
     getForm curlDownState.good_forms "curl" = some curlSeedCfg ∧
     (20 : ℚ) < 30 ∧ curlDownState.stage = some Stage.down) ∧
    ((process_frame curlDownState (some { angle := 20 })).1).stage = some Stage.up ∧
    ((process_frame curlDownState (some { angle := 20 })).1).counter =
      curlDownState.counter + 1 :=
  ⟨⟨rfl, rfl, by norm_num, rfl⟩,
   (C2_curl_rule curlDownState 20 rfl rfl).2 (by norm_num) rfl⟩

/-- C9: while recording is active, the sampling frame counter advances only
on frames with an actual pose detection — a no-detection frame neither
increments `frame_count` nor appends to the buffer, while every detected
frame increments it by one. -/
theorem C9_sampling_counts_detected_frames (s : TrackerState) (h : s.recording = true) :
    ((process_frame s none).1).frame_count = s.frame_count ∧
    ((process_frame s none).1).recorded_data = s.recorded_data ∧
    ∀ f : PoseFrame, ((process_frame s (some f)).1).frame_count = s.frame_count + 1 := by
  refine ⟨rfl, rfl, ?_⟩
  intro f
  have hp := route_frame_preserves s f
  have hr := record_step_recording f.landmarks (route_frame s f).1 (route_frame s f).2
    (by rw [hp.1]; exact h)
  show (record_step f.landmarks (route_frame s f).1 (route_frame s f).2).frame_count = _
  rw [hr.1, hp.2.1]

/-- A recording tracker three detected frames into its session. -/
def recActiveState : TrackerState :=
  { initState with recording := true, frame_count := 3 }

/-- C9, witness: on the active recording tracker, a no-detection frame
leaves counter and buffer alone and a detected frame advances the counter. -/
theorem C9_witness :
    recActiveState.recording = true ∧
    ((process_frame recActiveState none).1).frame_count = recActiveState.frame_count ∧
    ((process_frame recActiveState none).1).recorded_data = recActiveState.recorded_data ∧
    ((process_frame recActiveState (some { angle := 120 })).1).frame_count =
      recActiveState.frame_count + 1 :=
  ⟨rfl, (C9_sampling_counts_detected_frames recActiveState rfl).1,
   (C9_sampling_counts_detected_frames recActiveState rfl).2.1,
   (C9_sampling_counts_detected_frames recActiveState rfl).2.2 { angle := 120 }⟩

/-- The constant detected frame used in the concrete recording run: the
analyzer computes angle 95.7 and one landmark is detected at
(0.12345, 0.9876). -/
def recFrame : PoseFrame :=
  { angle := Rat.divInt 957 10
    landmarks := [{ x := Rat.divInt 12345 100000, y := Rat.divInt 9876 10000 }] }

/-- C5: `start_recording` sets the flag, clears the buffer and resets the
frame counter; while recording, a detected frame advances the counter by
one and appends a sampled record — with the angle truncated to an integer
and each landmark coordinate rounded to 3 decimals — exactly when the new
count is a multiple of 10; concretely, `start()` followed by 25 detected
frames and `stop()` returns exactly the two sampled frames with indices
10 and 20. -/
theorem C5_recording_sampling :
    (∀ s : TrackerState,
      (start_recording s).recording = true ∧
      (start_recording s).recorded_data = [] ∧
      (start_recording s).frame_count = 0) ∧
    (∀ (s : TrackerState) (f : PoseFrame), s.recording = true →
      ((process_frame s (some f)).1).frame_count = s.frame_count + 1 ∧
      ((process_frame s (some f)).1).recorded_data =
        (if (s.frame_count + 1) % 10 = 0 then
          s.recorded_data ++
            [{ i := s.frame_count + 1
               a := pyInt (route_frame s f).2
               s := ((route_frame s f).1).stage
               l := f.landmarks.map fun lm => { x := pyRound3 lm.x, y := pyRound3 lm.y } }]
         else s.recorded_data)) ∧
    (stop_recording (run_frames (start_recording lungeState)
        (List.replicate 25 (some recFrame)))).2.frames =
      [{ i := 10, a := 95, s := none,
         l := [{ x := Rat.divInt 123 1000, y := Rat.divInt 988 1000 }] },
       { i := 20, a := 95, s := none,
         l := [{ x := Rat.divInt 123 1000, y := Rat.divInt 988 1000 }] }] := by
  refine ⟨fun s => ⟨rfl, rfl, rfl⟩, ?_, ?_⟩
  · intro s f h
    have hp := route_frame_preserves s f
    have hr := record_step_recording f.landmarks (route_frame s f).1 (route_frame s f).2
      (by rw [hp.1]; exact h)
    constructor
    · show (record_step f.landmarks (route_frame s f).1 (route_frame s f).2).frame_count = _
      rw [hr.1, hp.2.1]
    · show (record_step f.landmarks (route_frame s f).1 (route_frame s f).2).recorded_data = _
      rw [hr.2, hp.2.1, hp.2.2]
  · with_unfolding_all decide

/-- A recording tracker nine detected frames into its session. -/
def recNineState : TrackerState :=
  { initState with recording := true, frame_count := 9 }

/-- C5, witness: the tenth detected frame is appended to the buffer. -/
theorem C5_witness :
    recNineState.recording = true ∧
    ((process_frame recNineState (some recFrame)).1).frame_count =
      recNineState.frame_count + 1 ∧
    ((process_frame recNineState (some recFrame)).1).recorded_data =
      (if (recNineState.frame_count + 1) % 10 = 0 then
        recNineState.recorded_data ++
          [{ i := recNineState.frame_count + 1
             a := pyInt (route_frame recNineState recFrame).2
             s := ((route_frame recNineState recFrame).1).stage
             l := recFrame.landmarks.map fun lm =>
               { x := pyRound3 lm.x, y := pyRound3 lm.y } }]
       else recNineState.recorded_data) :=
  ⟨rfl, (C5_recording_sampling.2.1 recNineState recFrame rfl).1,
   (C5_recording_sampling.2.1 recNineState recFrame rfl).2⟩

/-- The modelled `atan2` always lies in `(-π, π]`. -/
theorem arctan2_mem_Ioc (y x : ℝ) :
    -Real.pi < arctan2 y x ∧ arctan2 y x ≤ Real.pi :=
  ⟨Complex.neg_pi_lt_arg _, Complex.arg_le_pi _⟩

/-- C7: for all inputs a, b, c (in particular all finite, non-degenerate
ones) with b as the vertex, `calculate_angle` — the absolute atan2
difference in degrees, reflected as 360 minus the value when it exceeds
180 — returns a value in the closed interval [0, 180]. -/
theorem C7_calculate_angle_range (a b c : ℝ × ℝ) :
    0 ≤ calculate_angle a b c ∧ calculate_angle a b c ≤ 180 := by
  have hπ : (0 : ℝ) < Real.pi := Real.pi_pos
  unfold calculate_angle
  dsimp only
  set t1 := arctan2 (c.2 - b.2) (c.1 - b.1) with ht1
  set t2 := arctan2 (a.2 - b.2) (a.1 - b.1) with ht2
  obtain ⟨h1b, h1a⟩ := arctan2_mem_Ioc (c.2 - b.2) (c.1 - b.1)
  obtain ⟨h2b, h2a⟩ := arctan2_mem_Ioc (a.2 - b.2) (a.1 - b.1)
  have hd : |t1 - t2| < 2 * Real.pi := by
    rw [abs_sub_lt_iff]
    constructor <;> linarith
  have hval : |(t1 - t2) * 180 / Real.pi| = |t1 - t2| * 180 / Real.pi := by
    rw [abs_div, abs_mul, abs_of_pos hπ]
    norm_num
  have hlt : |(t1 - t2) * 180 / Real.pi| < 360 := by
    rw [hval, div_lt_iff₀ hπ]
    linarith
  have hnn : 0 ≤ |(t1 - t2) * 180 / Real.pi| := abs_nonneg _
  split_ifs with h
  · constructor <;> linarith
  · exact ⟨hnn, not_lt.mp h⟩

end CoachAI
